import Mathlib

/-!
Verification of the OPI (Orbital Propagation Interface) BasicCPP example
propagator against its design specification.

The C++ source `examples/propagator_basic_cpp.cpp` is shallowly embedded
below.  The propagator's `float`/`double` arithmetic is idealised over `ℝ`
(real arithmetic in place of IEEE floating point); otherwise every
definition follows the source line by line.  Parts of the OPI core that
the repository snapshot does not include (the Host dispatcher, the
Population synchronisation table, the plugin loader) are modelled from
the specification and are marked `Modelled from the spec:` in their doc
comments.
-/

namespace OPI

/-- Modelled from the spec: the error taxonomy of §7 (`opi_error.h` is not
part of the source snapshot).  Only the codes the claims mention are
listed. -/
inductive ErrorCode where
  | SUCCESS
  | NOT_IMPLEMENTED
  | UNSUPPORTED_DIRECTION
  | VERSION_INCOMPATIBLE
  | INDEX_OUT_OF_RANGE
  deriving DecidableEq

/-- Modelled from the spec: backends (§3, glossary) — host memory plus the
two accelerator device kinds the plugin capability queries mention
(`requiresCUDA`, `requiresOpenCL`). -/
inductive Device where
  | DEVICE_HOST
  | DEVICE_CUDA
  | DEVICE_OPENCL
  deriving DecidableEq

/-- Modelled from the spec: the independently tracked data categories of the
Population (§3: elements, position, velocity, properties). -/
inductive DataCategory where
  | DATA_ORBIT
  | DATA_POSITION
  | DATA_VELOCITY
  | DATA_PROPERTIES
  deriving DecidableEq

/-- Modelled from the spec: the three dispatch modes of §4.3. -/
inductive PropagationMode where
  | Full
  | Indexed
  | MultiTime
  deriving DecidableEq

/-- The six classical orbital elements of one object (`OPI::Orbit`),
doubles in the source, idealised as reals. -/
structure Orbit where
  semi_major_axis : ℝ
  eccentricity : ℝ
  inclination : ℝ
  raan : ℝ
  arg_of_perigee : ℝ
  mean_anomaly : ℝ

/-- A Cartesian 3-vector (`OPI::Vector3`). -/
structure Vector3 where
  x : ℝ
  y : ℝ
  z : ℝ

/-- The Population: size, per-object orbital elements and positions, and —
modelled from the spec (§4.4) — the per-(category, backend) validity table
that `update` maintains.  The per-object data is modelled as one logical
array per category (after a sync all backends hold bit-identical copies,
§3). -/
structure Population where
  size : ℕ
  orbit : ℕ → Orbit
  position : ℕ → Vector3
  valid : DataCategory → Device → Bool

def Population.getSize (p : Population) : ℕ := p.size

/-- Modelled from the spec (§4.4): `get` returns the backend-local storage,
copying from the authoritative backend when stale; it never mutates
validity state.  With the single-logical-array data model the returned
handle is the array itself. -/
def Population.getOrbit (p : Population) (_b : Device) : ℕ → Orbit := p.orbit

/-- Modelled from the spec (§4.4): see `Population.getOrbit`. -/
def Population.getPosition (p : Population) (_b : Device) : ℕ → Vector3 := p.position

/-- Modelled from the spec (§4.4): `update(category, backend)` marks
`backend` as authoritative for `category` and invalidates all other
backends' copies for that category (`opi_population.cpp` is not part of
the source snapshot). -/
def Population.update (p : Population) (cat : DataCategory) (b : Device) : Population :=
  { p with valid := fun c b2 => if c = cat then decide (b2 = b) else p.valid c b2 }

/-- The host backend is authoritative for `cat`: its copy is valid and
every other backend's copy is invalid. -/
def hostAuthoritative (p : Population) (cat : DataCategory) : Prop :=
  p.valid cat Device.DEVICE_HOST = true ∧
  p.valid cat Device.DEVICE_CUDA = false ∧
  p.valid cat Device.DEVICE_OPENCL = false

namespace BasicCPP

/-- Source line 177: `float PI = 3.1415926f`. -/
def PI : ℝ := 3.1415926

/-- Source line 178: `float RMUE = 398600.5f`. -/
def RMUE : ℝ := 398600.5

/-- Source line 179: `float EPSILON = 0.00001f`. -/
def EPSILON : ℝ := 0.00001

/-- C `fmod`: remainder with the quotient truncated toward zero. -/
noncomputable def fmod (x y : ℝ) : ℝ :=
  x - y * (if 0 ≤ x / y then (⌊x / y⌋ : ℤ) else ⌈x / y⌉)

/-- Source lines 144-156, the Newton iteration of `mean2eccentric`,
indexed by the number of loop iterations already performed. -/
noncomputable def mean2eccentricIter (meanAnomaly eccentricity : ℝ) : ℕ → ℝ
  | 0 => meanAnomaly
  | n + 1 =>
      let eccentricAnomaly := mean2eccentricIter meanAnomaly eccentricity n
      let fcte := eccentricAnomaly - eccentricity * Real.sin eccentricAnomaly - meanAnomaly
      let fctes := 1 - eccentricity * Real.cos eccentricAnomaly
      eccentricAnomaly - fcte / fctes

/-- Source lines 144-156: `mean2eccentric` runs the iteration
`maxloop = 5` times. -/
noncomputable def mean2eccentric (meanAnomaly eccentricity : ℝ) : ℝ :=
  mean2eccentricIter meanAnomaly eccentricity 5

/-- Source line 182: `orbit_period = 2.0f * PI * sqrt(powf(sma,3.0f) / RMUE)`. -/
noncomputable def orbit_period (sma : ℝ) : ℝ :=
  2 * PI * Real.sqrt (sma ^ 3 / RMUE)

/-- Source line 188: the freshly computed mean anomaly
`fmodf(sqrtf((RMUE * t * t) / powf(sma,3.0f)), 2.0f*PI)`. -/
noncomputable def newMeanAnomaly (sma t : ℝ) : ℝ :=
  fmod (Real.sqrt ((RMUE * t * t) / sma ^ 3)) (2 * PI)

/-- Source lines 192-194: eccentric anomaly to true anomaly. -/
noncomputable def trueAnomaly (excentric_anomaly ecc : ℝ) : ℝ :=
  2 * Real.arctan (Real.sqrt ((1 + ecc) / (1 - ecc)) *
    Real.sin (excentric_anomaly / 2) / Real.cos (excentric_anomaly / 2))

/-- Source lines 198-201: the unit orientation vector `w`. -/
noncomputable def orientation (u raan inc : ℝ) : Vector3 :=
  { x := Real.cos u * Real.cos raan - Real.sin u * Real.sin raan * Real.cos inc
    y := Real.cos u * Real.sin raan + Real.sin u * Real.cos raan * Real.cos inc
    z := Real.sin u * Real.sin inc }

/-- Source lines 205-206: `float r = p / EPSILON; if (arg > EPSILON) r = p / arg;`. -/
noncomputable def radius (p arg : ℝ) : ℝ :=
  if arg > EPSILON then p / arg else p / EPSILON

/-- The body of the per-object loop of `cpp_propagate` (source lines
162-215): returns the position written to `position[i]` and the mean
anomaly written back to `orbit[i].mean_anomaly`.  The source also reads
`orbit[i].mean_anomaly` into the local `phi`, which is never used (the
source comment itself notes the initial mean anomaly is disregarded). -/
noncomputable def propagateObject (o : Orbit) (seconds : ℝ) : Vector3 × ℝ :=
  let sma := o.semi_major_axis
  let ecc := o.eccentricity
  let inc := o.inclination
  let raan := o.raan
  let aop := o.arg_of_perigee
  let t := fmod seconds (orbit_period sma)
  let mean_anomaly := newMeanAnomaly sma t
  let excentric_anomaly := mean2eccentric mean_anomaly ecc
  let true_anomaly := trueAnomaly excentric_anomaly ecc
  let u := true_anomaly + aop
  let w := orientation u raan inc
  let p := sma * (1 - ecc ^ 2)
  let arg := 1 + ecc * Real.cos true_anomaly
  let r := radius p arg
  ({ x := w.x * r, y := w.y * r, z := w.z * r }, mean_anomaly)

/-- Source lines 159-216: `cpp_propagate` loops over all `i < size`,
writing `position[i]` and `orbit[i].mean_anomaly`; entries at or beyond
`size` are untouched.  Returns the new orbit and position arrays. -/
noncomputable def cpp_propagate (orbit : ℕ → Orbit) (position : ℕ → Vector3)
    (seconds : ℝ) (size : ℕ) : (ℕ → Orbit) × (ℕ → Vector3) :=
  (fun i => if i < size then
      { orbit i with mean_anomaly := (propagateObject (orbit i) seconds).2 }
    else orbit i,
   fun i => if i < size then (propagateObject (orbit i) seconds).1 else position i)

/-- The plugin's private state: the member `double baseDay` (source
line 141). -/
structure State where
  baseDay : ℝ

/-- The constructor (source lines 22-25) sets `baseDay = 0`. -/
def initState : State := { baseDay := 0 }

/-- Source line 39: `if (baseDay == 0) baseDay = julian_day;` — the value
`baseDay` holds after the check. -/
noncomputable def effectiveBaseDay (baseDay julian_day : ℝ) : ℝ :=
  if baseDay = 0 then julian_day else baseDay

/-- Source line 40: `float seconds = (julian_day-baseDay)*86400.0 + dt`. -/
def elapsedSeconds (baseDay julian_day dt : ℝ) : ℝ :=
  (julian_day - baseDay) * 86400 + dt

/-- Source lines 33-55: `runPropagation`.  Captures the base day on first
use, computes the elapsed seconds, runs `cpp_propagate` on the host-side
orbit and position arrays, marks position and orbit as updated on the
host backend, and returns `SUCCESS`.  The `mode` and `list` parameters
are accepted and ignored, as in the source. -/
noncomputable def runPropagation (s : State) (population : Population)
    (julian_day dt : ℝ) (_mode : PropagationMode) (_list : Option (List ℕ)) :
    ErrorCode × State × Population :=
  let baseDay := effectiveBaseDay s.baseDay julian_day
  let seconds := elapsedSeconds baseDay julian_day dt
  let orbit := population.getOrbit Device.DEVICE_HOST
  let position := population.getPosition Device.DEVICE_HOST
  let res := cpp_propagate orbit position seconds population.getSize
  let pop1 := { population with orbit := res.1, position := res.2 }
  let pop2 := (pop1.update DataCategory.DATA_POSITION Device.DEVICE_HOST).update
      DataCategory.DATA_ORBIT Device.DEVICE_HOST
  (ErrorCode.SUCCESS, { baseDay := baseDay }, pop2)

/-- Source lines 68-71: `runIndexedPropagation` just returns
`NOT_IMPLEMENTED` (state and population untouched). -/
def runIndexedPropagation (s : State) (population : Population)
    (_indices : List ℕ) (_julian_day _dt : ℝ) : ErrorCode × State × Population :=
  (ErrorCode.NOT_IMPLEMENTED, s, population)

/-- Source lines 73-76: `runMultiTimePropagation` just returns
`NOT_IMPLEMENTED` (state and population untouched). -/
def runMultiTimePropagation (s : State) (population : Population)
    (_julian_days : List ℝ) (_dt : ℝ) : ErrorCode × State × Population :=
  (ErrorCode.NOT_IMPLEMENTED, s, population)

/-- Source lines 83-87: `runDisable` sets `baseDay = 0` and returns
`SUCCESS`. -/
def runDisable (_s : State) : ErrorCode × State :=
  (ErrorCode.SUCCESS, { baseDay := 0 })

/-- Source lines 89-92: `runEnable` returns `SUCCESS` and touches
nothing. -/
def runEnable (s : State) : ErrorCode × State :=
  (ErrorCode.SUCCESS, s)

/-- Source lines 100-103. -/
def backwardPropagation : Bool := false

/-- Source lines 107-110. -/
def cartesianCoordinates : Bool := true

/-- Source lines 135-138: `minimumOPIVersionRequired` returns 1. -/
def minimumOPIVersionRequired : ℤ := 1

end BasicCPP

/-- Plugin metadata: name, author, description, semantic version and
minimum required host version (spec §3 Plugin Descriptor; populated from
the `OPI_PLUGIN_*` defines and capability queries of the plugin source). -/
structure PluginInfo where
  name : String
  author : String
  desc : String
  versionMajor : ℤ
  versionMinor : ℤ
  versionPatch : ℤ
  minimumOPIVersionRequired : ℤ

/-- The descriptor BasicCPP declares (source lines 7-14 and 135-138). -/
def basicCPPInfo : PluginInfo :=
  { name := "BasicCPP"
    author := "ILR TU BS"
    desc := "Basic Mean Motion Converter - C++ version"
    versionMajor := 0
    versionMinor := 1
    versionPatch := 0
    minimumOPIVersionRequired := BasicCPP.minimumOPIVersionRequired }

namespace Host

/-- Modelled from the spec: plugin load-time version gating (§4.2, §6, §8;
`opi_host.cpp` is not part of the source snapshot).  A plugin loads, and is
appended to the registry, only when its declared minimum required host
version is at most the host's actual version; otherwise the load fails
with `VersionIncompatible` and the registry is unchanged. -/
def loadPlugin (registry : List PluginInfo) (p : PluginInfo) (hostVersion : ℤ) :
    ErrorCode × List PluginInfo :=
  if p.minimumOPIVersionRequired ≤ hostVersion then
    (ErrorCode.SUCCESS, registry ++ [p])
  else
    (ErrorCode.VERSION_INCOMPATIBLE, registry)

/-- Modelled from the spec: pre-dispatch validation (§4.3; `opi_host.cpp`
is not part of the source snapshot).  A backward time step requested
against a plugin reporting no backward support fails with
`UnsupportedDirection` before any propagation output is produced; the
dispatch target here is the BasicCPP plugin. -/
noncomputable def hostPropagate (s : BasicCPP.State) (population : Population)
    (julian_day dt : ℝ) (mode : PropagationMode) (list : Option (List ℕ)) :
    ErrorCode × BasicCPP.State × Population :=
  if dt < 0 ∧ BasicCPP.backwardPropagation = false then
    (ErrorCode.UNSUPPORTED_DIRECTION, s, population)
  else
    BasicCPP.runPropagation s population julian_day dt mode list

/-- Modelled from the spec (§4.3): the single-object view the indexed
fallback loop constructs for index `i`. -/
def singleObjectView (population : Population) (i : ℕ) : Population :=
  { size := 1
    orbit := fun _ => population.orbit i
    position := fun _ => population.position i
    valid := population.valid }

/-- Modelled from the spec (§4.3): write a propagated single-object view
back into the full population at index `i`. -/
def mergeSingleObject (population : Population) (i : ℕ) (v : Population) : Population :=
  { population with
    orbit := Function.update population.orbit i (v.orbit 0)
    position := Function.update population.position i (v.position 0)
    valid := v.valid }

/-- Modelled from the spec (§4.3): the Host's portable indexed fallback
loop — for each index in the list, in list order, build a single-object
view and call the plugin's mandatory `runPropagation`; stop at the first
non-success result. -/
noncomputable def indexedFallback (julian_day dt : ℝ) :
    BasicCPP.State → Population → List ℕ → ErrorCode × BasicCPP.State × Population
  | s, population, [] => (ErrorCode.SUCCESS, s, population)
  | s, population, i :: rest =>
      let r := BasicCPP.runPropagation s (singleObjectView population i)
        julian_day dt PropagationMode.Indexed none
      let merged := mergeSingleObject population i r.2.2
      if r.1 = ErrorCode.SUCCESS then
        indexedFallback julian_day dt r.2.1 merged rest
      else
        (r.1, r.2.1, merged)

/-- Modelled from the spec (§4.3, §7): indexed dispatch first invokes the
plugin's optional indexed entry point and absorbs a `NotImplemented`
result by running the fallback loop instead of returning it to the
caller. -/
noncomputable def hostIndexedDispatch (s : BasicCPP.State) (population : Population)
    (indices : List ℕ) (julian_day dt : ℝ) : ErrorCode × BasicCPP.State × Population :=
  let r := BasicCPP.runIndexedPropagation s population indices julian_day dt
  if r.1 = ErrorCode.NOT_IMPLEMENTED then
    indexedFallback julian_day dt r.2.1 r.2.2 indices
  else
    r

/-- Modelled from the spec (§4.3): the distinct requested days in
ascending order. -/
noncomputable def distinctDays (julian_days : List ℝ) : List ℝ :=
  List.insertionSort (fun a b => a ≤ b) julian_days.dedup

/-- Modelled from the spec (§4.3): the object indices whose requested day
equals `d`. -/
noncomputable def indicesForDay (julian_days : List ℝ) (d : ℝ) : List ℕ :=
  (List.range julian_days.length).filter (fun i => decide (julian_days.getD i 0 = d))

/-- Modelled from the spec (§4.3): the view containing the objects listed
in `idxs`, propagated together in one call. -/
def multiObjectView (population : Population) (idxs : List ℕ) : Population :=
  { size := idxs.length
    orbit := fun j => population.orbit (idxs.getD j 0)
    position := fun j => population.position (idxs.getD j 0)
    valid := population.valid }

/-- Modelled from the spec (§4.3): write a propagated multi-object view
back into the full population. -/
noncomputable def mergeMultiObject (population : Population) (idxs : List ℕ)
    (v : Population) : Population :=
  { population with
    orbit := fun i => if i ∈ idxs then v.orbit (idxs.indexOf i) else population.orbit i
    position := fun i => if i ∈ idxs then v.position (idxs.indexOf i) else population.position i
    valid := v.valid }

/-- Modelled from the spec (§4.3): the Host's multi-time fallback —
invoke the mandatory run entry point once per distinct requested day in
ascending order, objects sharing a day propagated together; stop at the
first non-success result. -/
noncomputable def multiTimeFallback (dt : ℝ) (julian_days : List ℝ) :
    BasicCPP.State → Population → List ℝ → ErrorCode × BasicCPP.State × Population
  | s, population, [] => (ErrorCode.SUCCESS, s, population)
  | s, population, d :: rest =>
      let idxs := indicesForDay julian_days d
      let r := BasicCPP.runPropagation s (multiObjectView population idxs)
        d dt PropagationMode.MultiTime none
      let merged := mergeMultiObject population idxs r.2.2
      if r.1 = ErrorCode.SUCCESS then
        multiTimeFallback dt julian_days r.2.1 merged rest
      else
        (r.1, r.2.1, merged)

/-- Modelled from the spec (§4.3, §7): multi-time dispatch first invokes
the plugin's optional multi-time entry point and absorbs a
`NotImplemented` result by running the fallback instead of returning it
to the caller. -/
noncomputable def hostMultiTimeDispatch (s : BasicCPP.State) (population : Population)
    (julian_days : List ℝ) (dt : ℝ) : ErrorCode × BasicCPP.State × Population :=
  let r := BasicCPP.runMultiTimePropagation s population julian_days dt
  if r.1 = ErrorCode.NOT_IMPLEMENTED then
    multiTimeFallback dt julian_days r.2.1 r.2.2 (distinctDays julian_days)
  else
    r

end Host

/-- The test scenario's orbit (spec §8: any non-degenerate orbit; concrete
elements chosen for the witnesses). -/
def scenarioOrbit : Orbit :=
  { semi_major_axis := 7000
    eccentricity := 0
    inclination := 1
    raan := 2
    arg_of_perigee := 3
    mean_anomaly := 4 }

/-- The test scenario's population (spec §8): 200 freshly created objects,
positions zero-initialised, the host backend holding the data. -/
def scenarioPopulation : Population :=
  { size := 200
    orbit := fun _ => scenarioOrbit
    position := fun _ => { x := 0, y := 0, z := 0 }
    valid := fun _ b => decide (b = Device.DEVICE_HOST) }

/-- An orbit equal to `scenarioOrbit` except for its mean anomaly. -/
def meanShiftedOrbit : Orbit :=
  { scenarioOrbit with mean_anomaly := 5 }

theorem runPropagation_code (s : BasicCPP.State) (population : Population)
    (julian_day dt : ℝ) (mode : PropagationMode) (list : Option (List ℕ)) :
    (BasicCPP.runPropagation s population julian_day dt mode list).1 = ErrorCode.SUCCESS := rfl

theorem runPropagation_state (s : BasicCPP.State) (population : Population)
    (julian_day dt : ℝ) (mode : PropagationMode) (list : Option (List ℕ)) :
    (BasicCPP.runPropagation s population julian_day dt mode list).2.1 =
      { baseDay := BasicCPP.effectiveBaseDay s.baseDay julian_day } := rfl

theorem runPropagation_orbit (s : BasicCPP.State) (population : Population)
    (julian_day dt : ℝ) (mode : PropagationMode) (list : Option (List ℕ)) :
    (BasicCPP.runPropagation s population julian_day dt mode list).2.2.orbit =
      (BasicCPP.cpp_propagate population.orbit population.position
        (BasicCPP.elapsedSeconds (BasicCPP.effectiveBaseDay s.baseDay julian_day) julian_day dt)
        population.size).1 := rfl

theorem runPropagation_position (s : BasicCPP.State) (population : Population)
    (julian_day dt : ℝ) (mode : PropagationMode) (list : Option (List ℕ)) :
    (BasicCPP.runPropagation s population julian_day dt mode list).2.2.position =
      (BasicCPP.cpp_propagate population.orbit population.position
        (BasicCPP.elapsedSeconds (BasicCPP.effectiveBaseDay s.baseDay julian_day) julian_day dt)
        population.size).2 := rfl

theorem epsilon_pos : (0 : ℝ) < BasicCPP.EPSILON := by
  norm_num [BasicCPP.EPSILON]

theorem radius_pos (p arg : ℝ) (hp : 0 < p) : 0 < BasicCPP.radius p arg := by
  unfold BasicCPP.radius
  split
  · next h => exact div_pos hp (epsilon_pos.trans h)
  · exact div_pos hp epsilon_pos

theorem orientation_normSq (u raan inc : ℝ) :
    (BasicCPP.orientation u raan inc).x ^ 2 + (BasicCPP.orientation u raan inc).y ^ 2 +
      (BasicCPP.orientation u raan inc).z ^ 2 = 1 := by
  simp only [BasicCPP.orientation]
  linear_combination
    (Real.cos u ^ 2 + Real.sin u ^ 2 * Real.cos inc ^ 2) * Real.sin_sq_add_cos_sq raan +
      Real.sin u ^ 2 * Real.sin_sq_add_cos_sq inc + Real.sin_sq_add_cos_sq u

theorem scaledOrientation_ne_zero (u raan inc p arg : ℝ) (hp : 0 < p) :
    ({ x := (BasicCPP.orientation u raan inc).x * BasicCPP.radius p arg
       y := (BasicCPP.orientation u raan inc).y * BasicCPP.radius p arg
       z := (BasicCPP.orientation u raan inc).z * BasicCPP.radius p arg } : Vector3) ≠
      { x := 0, y := 0, z := 0 } := by
  intro h
  rw [Vector3.mk.injEq] at h
  have hr := radius_pos p arg hp
  have hwx := (mul_eq_zero.mp h.1).resolve_right (ne_of_gt hr)
  have hwy := (mul_eq_zero.mp h.2.1).resolve_right (ne_of_gt hr)
  have hwz := (mul_eq_zero.mp h.2.2).resolve_right (ne_of_gt hr)
  have hn := orientation_normSq u raan inc
  rw [hwx, hwy, hwz] at hn
  norm_num at hn

theorem propagateObject_position_ne_zero (o : Orbit) (seconds : ℝ)
    (hsma : 0 < o.semi_major_axis) (hecc0 : 0 ≤ o.eccentricity)
    (hecc1 : o.eccentricity < 1) :
    (BasicCPP.propagateObject o seconds).1 ≠ { x := 0, y := 0, z := 0 } := by
  have h1 : (0:ℝ) < 1 - o.eccentricity := by linarith
  have h2 : (0:ℝ) < 1 + o.eccentricity := by linarith
  have hp : 0 < o.semi_major_axis * (1 - o.eccentricity ^ 2) := by
    nlinarith [mul_pos hsma (mul_pos h1 h2)]
  simpa only [BasicCPP.propagateObject] using scaledOrientation_ne_zero _ _ _ _ _ hp

theorem propagateObject_congr (o1 o2 : Orbit) (seconds : ℝ)
    (h1 : o1.semi_major_axis = o2.semi_major_axis)
    (h2 : o1.eccentricity = o2.eccentricity)
    (h3 : o1.inclination = o2.inclination)
    (h4 : o1.raan = o2.raan)
    (h5 : o1.arg_of_perigee = o2.arg_of_perigee) :
    BasicCPP.propagateObject o1 seconds = BasicCPP.propagateObject o2 seconds := by
  simp only [BasicCPP.propagateObject, h1, h2, h3, h4, h5]

theorem indexedFallback_code (julian_day dt : ℝ) :
    ∀ (l : List ℕ) (s : BasicCPP.State) (population : Population),
      (Host.indexedFallback julian_day dt s population l).1 = ErrorCode.SUCCESS := by
  intro l
  induction l with
  | nil => intro s population; rfl
  | cons i rest ih =>
      intro s population
      simp only [Host.indexedFallback, runPropagation_code, if_pos]
      exact ih _ _

theorem multiTimeFallback_code (dt : ℝ) (julian_days : List ℝ) :
    ∀ (l : List ℝ) (s : BasicCPP.State) (population : Population),
      (Host.multiTimeFallback dt julian_days s population l).1 = ErrorCode.SUCCESS := by
  intro l
  induction l with
  | nil => intro s population; rfl
  | cons d rest ih =>
      intro s population
      simp only [Host.multiTimeFallback, runPropagation_code, if_pos]
      exact ih _ _

/-- C1: disable-then-enable resets the plugin-private state — `runDisable`
sets `baseDay` back to 0, `runEnable` keeps it, and a `runPropagation`
call with `dt = 0` after the re-enable produces exactly the same output
(error code, state and population) as the very first `runPropagation`
call after the initial enable with the same arguments; the elapsed-time
baseline is re-captured, so the elapsed seconds the plugin computes for
that call are 0 again. -/
theorem disable_enable_resets_baseline (s : BasicCPP.State) (population : Population)
    (julian_day : ℝ) (mode : PropagationMode) (list : Option (List ℕ)) :
    (BasicCPP.runDisable s).2.baseDay = 0 ∧
    BasicCPP.runPropagation ((BasicCPP.runEnable (BasicCPP.runDisable s).2).2)
        population julian_day 0 mode list =
      BasicCPP.runPropagation BasicCPP.initState population julian_day 0 mode list ∧
    BasicCPP.elapsedSeconds
        (BasicCPP.effectiveBaseDay
          ((BasicCPP.runEnable (BasicCPP.runDisable s).2).2).baseDay julian_day)
        julian_day 0 = 0 := by
  refine ⟨rfl, rfl, ?_⟩
  unfold BasicCPP.runEnable BasicCPP.runDisable BasicCPP.effectiveBaseDay BasicCPP.elapsedSeconds
  simp

/-- C2: a plugin's `NotImplemented` from an optional entry point never
reaches the application — BasicCPP's `runIndexedPropagation` and
`runMultiTimePropagation` always return `NOT_IMPLEMENTED` and leave
state and population unchanged, and the Host's indexed and multi-time
dispatchers absorb that result by re-dispatching through the fallback
loops built on the mandatory `runPropagation`, returning `SUCCESS`
(never `NOT_IMPLEMENTED`) to the caller. -/
theorem notImplemented_absorbed (s : BasicCPP.State) (population : Population)
    (indices : List ℕ) (julian_days : List ℝ) (julian_day dt : ℝ) :
    BasicCPP.runIndexedPropagation s population indices julian_day dt =
      (ErrorCode.NOT_IMPLEMENTED, s, population) ∧
    BasicCPP.runMultiTimePropagation s population julian_days dt =
      (ErrorCode.NOT_IMPLEMENTED, s, population) ∧
    Host.hostIndexedDispatch s population indices julian_day dt =
      Host.indexedFallback julian_day dt s population indices ∧
    Host.hostMultiTimeDispatch s population julian_days dt =
      Host.multiTimeFallback dt julian_days s population (Host.distinctDays julian_days) ∧
    (Host.hostIndexedDispatch s population indices julian_day dt).1 = ErrorCode.SUCCESS ∧
    (Host.hostMultiTimeDispatch s population julian_days dt).1 = ErrorCode.SUCCESS ∧
    (Host.hostIndexedDispatch s population indices julian_day dt).1 ≠
      ErrorCode.NOT_IMPLEMENTED ∧
    (Host.hostMultiTimeDispatch s population julian_days dt).1 ≠
      ErrorCode.NOT_IMPLEMENTED := by
  have hidx : (Host.hostIndexedDispatch s population indices julian_day dt).1 =
      ErrorCode.SUCCESS := indexedFallback_code julian_day dt indices s population
  have hmulti : (Host.hostMultiTimeDispatch s population julian_days dt).1 =
      ErrorCode.SUCCESS :=
    multiTimeFallback_code dt julian_days (Host.distinctDays julian_days) s population
  refine ⟨rfl, rfl, rfl, rfl, hidx, hmulti, ?_, ?_⟩
  · rw [hidx]; intro h; cases h
  · rw [hmulti]; intro h; cases h

/-- C3: after a Full-mode propagation through `BasicCPP.runPropagation`,
which always returns `SUCCESS`, the position category and the orbit
category are both marked as updated on the host backend — the host copy
is valid and every other backend's copy is invalidated, i.e. the host
backend is authoritative for those two categories. -/
theorem full_propagation_marks_host_authoritative (s : BasicCPP.State)
    (population : Population) (julian_day dt : ℝ) (list : Option (List ℕ)) :
    (BasicCPP.runPropagation s population julian_day dt PropagationMode.Full list).1 =
      ErrorCode.SUCCESS ∧
    hostAuthoritative
      (BasicCPP.runPropagation s population julian_day dt PropagationMode.Full list).2.2
      DataCategory.DATA_POSITION ∧
    hostAuthoritative
      (BasicCPP.runPropagation s population julian_day dt PropagationMode.Full list).2.2
      DataCategory.DATA_ORBIT :=
  ⟨rfl, ⟨rfl, rfl, rfl⟩, ⟨rfl, rfl, rfl⟩⟩

/-- C4: Full-mode propagation covers the whole population — for every
population, Julian day and `dt`, `runPropagation` returns `SUCCESS`; for
every index `i < size` it writes the newly computed Cartesian position
into `position[i]` and the newly computed mean anomaly into `orbit[i]`,
leaving the other five orbital elements unchanged; and for any
non-degenerate orbit (`0 < sma`, `0 ≤ ecc < 1`) of a freshly created
population (pre-call position zero, as in the 200-object `dt = 60`
scenario) the recomputed position differs from its pre-call value. -/
theorem full_propagation_covers_population (s : BasicCPP.State) (population : Population)
    (julian_day dt : ℝ) (mode : PropagationMode) (list : Option (List ℕ)) :
    (BasicCPP.runPropagation s population julian_day dt mode list).1 = ErrorCode.SUCCESS ∧
    (∀ i, i < population.size →
      (BasicCPP.runPropagation s population julian_day dt mode list).2.2.position i =
        (BasicCPP.propagateObject (population.orbit i)
          (BasicCPP.elapsedSeconds (BasicCPP.effectiveBaseDay s.baseDay julian_day)
            julian_day dt)).1 ∧
      ((BasicCPP.runPropagation s population julian_day dt mode list).2.2.orbit i).mean_anomaly =
        (BasicCPP.propagateObject (population.orbit i)
          (BasicCPP.elapsedSeconds (BasicCPP.effectiveBaseDay s.baseDay julian_day)
            julian_day dt)).2 ∧
      ((BasicCPP.runPropagation s population julian_day dt mode list).2.2.orbit i).semi_major_axis =
        (population.orbit i).semi_major_axis ∧
      ((BasicCPP.runPropagation s population julian_day dt mode list).2.2.orbit i).eccentricity =
        (population.orbit i).eccentricity ∧
      ((BasicCPP.runPropagation s population julian_day dt mode list).2.2.orbit i).inclination =
        (population.orbit i).inclination ∧
      ((BasicCPP.runPropagation s population julian_day dt mode list).2.2.orbit i).raan =
        (population.orbit i).raan ∧
      ((BasicCPP.runPropagation s population julian_day dt mode list).2.2.orbit i).arg_of_perigee =
        (population.orbit i).arg_of_perigee) ∧
    (∀ i, i < population.size →
      population.position i = { x := 0, y := 0, z := 0 } →
      0 < (population.orbit i).semi_major_axis →
      0 ≤ (population.orbit i).eccentricity →
      (population.orbit i).eccentricity < 1 →
      (BasicCPP.runPropagation s population julian_day dt mode list).2.2.position i ≠
        population.position i) := by
  refine ⟨rfl, ?_, ?_⟩
  · intro i hi
    rw [runPropagation_position, runPropagation_orbit]
    refine ⟨?_, ?_, ?_, ?_, ?_, ?_, ?_⟩ <;> simp [BasicCPP.cpp_propagate, hi]
  · intro i hi hzero hsma hecc0 hecc1
    rw [runPropagation_position, hzero]
    simpa [BasicCPP.cpp_propagate, hi] using
      propagateObject_position_ne_zero (population.orbit i)
        (BasicCPP.elapsedSeconds (BasicCPP.effectiveBaseDay s.baseDay julian_day) julian_day dt)
        hsma hecc0 hecc1

/-- Witness for C4: in the 200-object scenario population (fresh,
zero-initialised positions, non-degenerate orbits), the Full-mode call at
`julianDay = 2451545`, `dt = 60` recomputes object 0's position to a value
different from its pre-call value. -/
theorem full_propagation_covers_population_witness :
    (0 < scenarioPopulation.size ∧
      scenarioPopulation.position 0 = { x := 0, y := 0, z := 0 } ∧
      0 < (scenarioPopulation.orbit 0).semi_major_axis ∧
      0 ≤ (scenarioPopulation.orbit 0).eccentricity ∧
      (scenarioPopulation.orbit 0).eccentricity < 1) ∧
    (BasicCPP.runPropagation BasicCPP.initState scenarioPopulation 2451545 60
        PropagationMode.Full none).2.2.position 0 ≠ scenarioPopulation.position 0 :=
  ⟨⟨by norm_num [scenarioPopulation], rfl,
      by norm_num [scenarioPopulation, scenarioOrbit],
      by norm_num [scenarioPopulation, scenarioOrbit],
      by norm_num [scenarioPopulation, scenarioOrbit]⟩,
    (full_propagation_covers_population BasicCPP.initState scenarioPopulation 2451545 60
        PropagationMode.Full none).2.2 0
      (by norm_num [scenarioPopulation]) rfl
      (by norm_num [scenarioPopulation, scenarioOrbit])
      (by norm_num [scenarioPopulation, scenarioOrbit])
      (by norm_num [scenarioPopulation, scenarioOrbit])⟩

/-- C5: BasicCPP declares no backward-propagation support
(`backwardPropagation()` returns `false`), so a propagation request with
a backward time step (`dt < 0`) dispatched to BasicCPP fails with
`UnsupportedDirection`, leaving state and population untouched rather
than producing output. -/
theorem backward_request_unsupported_direction (s : BasicCPP.State)
    (population : Population) (julian_day dt : ℝ) (mode : PropagationMode)
    (list : Option (List ℕ)) (hdt : dt < 0) :
    BasicCPP.backwardPropagation = false ∧
    Host.hostPropagate s population julian_day dt mode list =
      (ErrorCode.UNSUPPORTED_DIRECTION, s, population) := by
  refine ⟨rfl, ?_⟩
  unfold Host.hostPropagate
  rw [if_pos ⟨hdt, rfl⟩]

/-- Witness for C5: a backward step `dt = -1` against BasicCPP fails with
`UnsupportedDirection` and changes nothing. -/
theorem backward_request_unsupported_direction_witness :
    (-1 : ℝ) < 0 ∧
    Host.hostPropagate BasicCPP.initState scenarioPopulation 2451545 (-1)
        PropagationMode.Full none =
      (ErrorCode.UNSUPPORTED_DIRECTION, BasicCPP.initState, scenarioPopulation) :=
  ⟨by norm_num,
    (backward_request_unsupported_direction BasicCPP.initState scenarioPopulation
        2451545 (-1) PropagationMode.Full none (by norm_num)).2⟩

/-- C6: version gating at load time — a plugin loads successfully (and is
appended to the registry) exactly when its declared minimum required host
version is at most the host's actual version; otherwise the load fails
with `VersionIncompatible` and the registry is unchanged (same size
before and after the attempt).  BasicCPP declares minimum required OPI
version 1. -/
theorem version_gating (registry : List PluginInfo) (p : PluginInfo) (hostVersion : ℤ) :
    basicCPPInfo.minimumOPIVersionRequired = 1 ∧
    (p.minimumOPIVersionRequired ≤ hostVersion →
      Host.loadPlugin registry p hostVersion = (ErrorCode.SUCCESS, registry ++ [p])) ∧
    (hostVersion < p.minimumOPIVersionRequired →
      Host.loadPlugin registry p hostVersion = (ErrorCode.VERSION_INCOMPATIBLE, registry) ∧
      (Host.loadPlugin registry p hostVersion).2.length = registry.length) := by
  refine ⟨rfl, ?_, ?_⟩
  · intro h
    unfold Host.loadPlugin
    rw [if_pos h]
  · intro h
    unfold Host.loadPlugin
    rw [if_neg (not_le.mpr h)]
    exact ⟨rfl, rfl⟩

/-- Witness for C6: with host version 1, BasicCPP (minimum required
version 1) loads and is registered; with host version 0 the load fails
with `VersionIncompatible` and the registry stays empty. -/
theorem version_gating_witness :
    ((1 : ℤ) ≤ 1 ∧
      Host.loadPlugin [] basicCPPInfo 1 = (ErrorCode.SUCCESS, [basicCPPInfo])) ∧
    ((0 : ℤ) < 1 ∧
      Host.loadPlugin [] basicCPPInfo 0 = (ErrorCode.VERSION_INCOMPATIBLE, [])) :=
  ⟨⟨by decide, (version_gating [] basicCPPInfo 1).2.1 (by decide)⟩,
    ⟨by decide, ((version_gating [] basicCPPInfo 0).2.2 (by decide)).1⟩⟩

/-- C7: enable is idempotent — `runEnable` returns `SUCCESS`, leaves the
state (in particular `baseDay`) unchanged, and iterating the enable hook
any number of times changes nothing. -/
theorem enable_idempotent (s : BasicCPP.State) :
    BasicCPP.runEnable s = (ErrorCode.SUCCESS, s) ∧
    (BasicCPP.runEnable s).2.baseDay = s.baseDay ∧
    ∀ n : ℕ, (fun t => (BasicCPP.runEnable t).2)^[n] s = s := by
  refine ⟨rfl, rfl, ?_⟩
  intro n
  induction n with
  | zero => rfl
  | succ k ih => rw [Function.iterate_succ_apply]; exact ih

/-- C8: `baseDay == 0` is the not-yet-initialised sentinel — the
constructor and `runDisable` leave `baseDay = 0`; a first `runPropagation`
call passing `julian_day = 0` leaves `baseDay = 0`, so the baseline is
instead captured by the first subsequent call with a nonzero
`julian_day`; a first call with nonzero `julian_day` captures it at once,
and once captured (nonzero) the baseline persists across later calls. -/
theorem baseday_zero_sentinel (s : BasicCPP.State) (population : Population)
    (dt julian_day2 : ℝ) (mode : PropagationMode) (list : Option (List ℕ))
    (h2 : julian_day2 ≠ 0) :
    BasicCPP.initState.baseDay = 0 ∧
    (BasicCPP.runDisable s).2.baseDay = 0 ∧
    (BasicCPP.runPropagation BasicCPP.initState population 0 dt mode list).2.1.baseDay = 0 ∧
    (BasicCPP.runPropagation
        (BasicCPP.runPropagation BasicCPP.initState population 0 dt mode list).2.1
        population julian_day2 dt mode list).2.1.baseDay = julian_day2 ∧
    (BasicCPP.runPropagation BasicCPP.initState population julian_day2 dt mode
        list).2.1.baseDay = julian_day2 ∧
    (∀ julian_day3 : ℝ,
      (BasicCPP.runPropagation
          (BasicCPP.runPropagation BasicCPP.initState population julian_day2 dt mode list).2.1
          population julian_day3 dt mode list).2.1.baseDay = julian_day2) := by
  refine ⟨rfl, rfl, ?_, ?_, ?_, ?_⟩
  · simp [runPropagation_state, BasicCPP.effectiveBaseDay, BasicCPP.initState]
  · simp [runPropagation_state, BasicCPP.effectiveBaseDay, BasicCPP.initState]
  · simp [runPropagation_state, BasicCPP.effectiveBaseDay, BasicCPP.initState]
  · intro julian_day3
    simp [runPropagation_state, BasicCPP.effectiveBaseDay, BasicCPP.initState, h2]

/-- Witness for C8: with `julian_day2 = 2451545 ≠ 0` the sentinel behavior
holds on the scenario population. -/
theorem baseday_zero_sentinel_witness :
    (2451545 : ℝ) ≠ 0 ∧
    (BasicCPP.runPropagation BasicCPP.initState scenarioPopulation 0 60
        PropagationMode.Full none).2.1.baseDay = 0 ∧
    (BasicCPP.runPropagation
        (BasicCPP.runPropagation BasicCPP.initState scenarioPopulation 0 60
          PropagationMode.Full none).2.1
        scenarioPopulation 2451545 60 PropagationMode.Full none).2.1.baseDay = 2451545 :=
  ⟨by norm_num,
    (baseday_zero_sentinel BasicCPP.initState scenarioPopulation 60 2451545
        PropagationMode.Full none (by norm_num)).2.2.1,
    (baseday_zero_sentinel BasicCPP.initState scenarioPopulation 60 2451545
        PropagationMode.Full none (by norm_num)).2.2.2.1⟩

/-- C9: the propagation output is independent of the initial mean
anomalies — for two orbit arrays that agree in all elements except
`mean_anomaly` (and the same positions), `cpp_propagate` computes
identical position arrays and identical written-back mean anomalies. -/
theorem output_independent_of_mean_anomaly (o1 o2 : ℕ → Orbit) (position : ℕ → Vector3)
    (size : ℕ) (seconds : ℝ)
    (h1 : ∀ i, (o1 i).semi_major_axis = (o2 i).semi_major_axis)
    (h2 : ∀ i, (o1 i).eccentricity = (o2 i).eccentricity)
    (h3 : ∀ i, (o1 i).inclination = (o2 i).inclination)
    (h4 : ∀ i, (o1 i).raan = (o2 i).raan)
    (h5 : ∀ i, (o1 i).arg_of_perigee = (o2 i).arg_of_perigee) :
    (BasicCPP.cpp_propagate o1 position seconds size).2 =
      (BasicCPP.cpp_propagate o2 position seconds size).2 ∧
    ∀ i, i < size →
      ((BasicCPP.cpp_propagate o1 position seconds size).1 i).mean_anomaly =
        ((BasicCPP.cpp_propagate o2 position seconds size).1 i).mean_anomaly := by
  have hobj : ∀ i,
      BasicCPP.propagateObject (o1 i) seconds = BasicCPP.propagateObject (o2 i) seconds :=
    fun i => propagateObject_congr _ _ _ (h1 i) (h2 i) (h3 i) (h4 i) (h5 i)
  constructor
  · funext i
    by_cases hi : i < size
    · simp [BasicCPP.cpp_propagate, hi, hobj i]
    · simp [BasicCPP.cpp_propagate, hi]
  · intro i hi
    simp [BasicCPP.cpp_propagate, hi, hobj i]

/-- Witness for C9: the scenario orbit and its mean-anomaly-shifted copy
(which differ exactly in `mean_anomaly`) give identical position
outputs. -/
theorem output_independent_of_mean_anomaly_witness :
    scenarioOrbit.mean_anomaly ≠ meanShiftedOrbit.mean_anomaly ∧
    (BasicCPP.cpp_propagate (fun _ => scenarioOrbit)
        (fun _ => { x := 0, y := 0, z := 0 }) 60 200).2 =
      (BasicCPP.cpp_propagate (fun _ => meanShiftedOrbit)
        (fun _ => { x := 0, y := 0, z := 0 }) 60 200).2 :=
  ⟨by norm_num [scenarioOrbit, meanShiftedOrbit],
    (output_independent_of_mean_anomaly (fun _ => scenarioOrbit) (fun _ => meanShiftedOrbit)
        (fun _ => { x := 0, y := 0, z := 0 }) 200 60
        (fun _ => rfl) (fun _ => rfl) (fun _ => rfl) (fun _ => rfl) (fun _ => rfl)).1⟩

/-- C10: the orbital-radius division in `cpp_propagate` is guarded — `r`
is `p / arg` exactly when `arg > EPSILON` and `p / EPSILON` otherwise
(`EPSILON = 0.00001`), so the denominator of the radius computation is
always strictly positive and never zero. -/
theorem radius_division_guarded (p arg : ℝ) :
    (arg > BasicCPP.EPSILON → BasicCPP.radius p arg = p / arg) ∧
    (arg ≤ BasicCPP.EPSILON → BasicCPP.radius p arg = p / BasicCPP.EPSILON) ∧
    BasicCPP.EPSILON = 0.00001 ∧
    (0 < if arg > BasicCPP.EPSILON then arg else BasicCPP.EPSILON) ∧
    (if arg > BasicCPP.EPSILON then arg else BasicCPP.EPSILON) ≠ 0 ∧
    BasicCPP.radius p arg =
      p / (if arg > BasicCPP.EPSILON then arg else BasicCPP.EPSILON) := by
  have hpos : (0 : ℝ) < if arg > BasicCPP.EPSILON then arg else BasicCPP.EPSILON := by
    split
    · next h => exact epsilon_pos.trans h
    · exact epsilon_pos
  refine ⟨?_, ?_, rfl, hpos, ne_of_gt hpos, ?_⟩
  · intro h
    unfold BasicCPP.radius
    rw [if_pos h]
  · intro h
    unfold BasicCPP.radius
    rw [if_neg (not_lt.mpr h)]
  · unfold BasicCPP.radius
    split
    · rfl
    · rfl

/-- Witness for C10: at `arg = 1 > EPSILON` the radius is `p / arg`. -/
theorem radius_division_guarded_witness :
    (1 : ℝ) > BasicCPP.EPSILON ∧ BasicCPP.radius 2 1 = 2 / 1 :=
  ⟨by norm_num [BasicCPP.EPSILON],
    (radius_division_guarded 2 1).1 (by norm_num [BasicCPP.EPSILON])⟩

end OPI
